import Mathlib

/-!
Verification of the DuraXell biomarker scripts
(`extract_structured_biomarkers.py`, `verify_biomarkers.py`).

The Python code operates on FHIR JSON bundles.  We shallow-embed the parts
of the dynamic data the two scripts actually read: scalars (numbers and
strings), codings, codeable concepts, value representations, and the three
resource shapes (Patient / Condition / Observation) the dispatch inspects.
Python exceptions (ValueError from `float`, IndexError from `[0]` on an
empty list) are modelled with `Except Unit`; a swallowed exception
(`try/except: pass`) is modelled by the corresponding `Option` fallback.
`datetime.now().year` is modelled as an explicit parameter `y`.
-/

deriving instance DecidableEq for Except

namespace Duraxell

/-- A Python scalar as it occurs in the bundles: a JSON number or a string. -/
inductive PyScalar where
  | num (q : ℚ)
  | str (s : String)
deriving DecidableEq, Repr

/-- Python truthiness of an optional scalar: `None`, `0` and `""` are falsy. -/
def pyTruthy : Option PyScalar → Bool
  | none => false
  | some (.num q) => !(q == 0)
  | some (.str s) => !(s == "")

/-- Test whether `a` starts with `b` (character lists). -/
def charsStarts : List Char → List Char → Bool
  | [], _ => true
  | _ :: _, [] => false
  | a :: as, b :: bs => (a == b) && charsStarts as bs

/-- Test whether `needle` occurs as a contiguous sublist of `hay`. -/
def charsContains (hay needle : List Char) : Bool :=
  match hay with
  | [] => needle.isEmpty
  | _ :: t => charsStarts needle hay || charsContains t needle

/-- Python's `needle in hay` on strings (substring containment). -/
def strContains (hay needle : String) : Bool :=
  charsContains hay.toList needle.toList

/-- Python `str.lower()` (character-wise ASCII lowering). -/
def strLower (s : String) : String :=
  ⟨s.toList.map Char.toLower⟩

/-- Strip leading and trailing spaces (Python's lenient numeric parsing). -/
def trimChars (cs : List Char) : List Char :=
  ((cs.dropWhile (· == ' ')).reverse.dropWhile (· == ' ')).reverse

/-- A nonempty all-digit character list as a natural number. -/
def digitsToNat? (cs : List Char) : Option Nat :=
  if cs.isEmpty then none
  else if cs.all (·.isDigit) then
    some (cs.foldl (fun n c => 10 * n + (c.toNat - 48)) 0)
  else none

/-- Split at the first dot: `none` when there is no dot. -/
def splitDot : List Char → Option (List Char × List Char)
  | [] => none
  | '.' :: t => some ([], t)
  | c :: t => (splitDot t).map (fun p => (c :: p.1, p.2))

/-- Python `int(s)`: optional sign followed by digits, else failure. -/
def parseInt? (s : String) : Option Int :=
  match trimChars s.toList with
  | '-' :: t => (digitsToNat? t).map (fun n => -(n : Int))
  | '+' :: t => (digitsToNat? t).map Int.ofNat
  | t => (digitsToNat? t).map Int.ofNat

/-- Python `float(s)` restricted to plain decimal literals
(optional sign, digits, optional fractional part); `none` models the
`ValueError` raised on any other string. -/
def parseFloat? (s : String) : Option ℚ :=
  let cs := trimChars s.toList
  let sgn : ℚ := if cs.headD ' ' == '-' then -1 else 1
  let u := match cs with
           | '-' :: t => t
           | '+' :: t => t
           | t => t
  match splitDot u with
  | none => (digitsToNat? u).map (fun n => sgn * n)
  | some (a, b) =>
    if (a.isEmpty && b.isEmpty) || b.contains '.' then none
    else
      match (if a.isEmpty then some 0 else digitsToNat? a),
            (if b.isEmpty then some 0 else digitsToNat? b) with
      | some n, some m => some (sgn * ((n : ℚ) + (m : ℚ) / (10 : ℚ) ^ b.length))
      | _, _ => none

/-- Python `float(v)` on a scalar: numbers pass through, strings are parsed;
`none` models the raised `ValueError`. -/
def pyFloat : PyScalar → Option ℚ
  | .num q => some q
  | .str s => parseFloat? s

/-- Python `str(v)` (used by the f-string building `tnm_complete`). -/
def pyStr : PyScalar → String
  | .num q => toString q
  | .str s => s

/-- Python `str` of an optional scalar (`str(None) = "None"`). -/
def pyStrOpt (v : Option PyScalar) : String :=
  (v.map pyStr).getD "None"

/-- One entry of a `coding` list: `{"code": …, "display": …}`. -/
structure Coding where
  code : Option String
  display : Option String
deriving DecidableEq, Repr

/-- A codeable concept: optional `coding` list plus optional `text`.
`coding = none` models a missing `coding` key (the scripts then use the
default `[{}]` or `[]`); `coding = some []` models a present empty list. -/
structure CodeableConcept where
  coding : Option (List Coding)
  text : Option String
deriving DecidableEq, Repr

/-- A FHIR quantity; only its `value` key is read. -/
structure Quantity where
  value : Option PyScalar
deriving DecidableEq, Repr

/-- The fields of an Observation resource the scripts read. -/
structure Observation where
  code : CodeableConcept
  valueQuantity : Option Quantity
  valueCodeableConcept : Option CodeableConcept
  valueString : Option String
deriving DecidableEq, Repr

/-- A bundle entry's resource, discriminated on `resourceType` exactly as the
scripts do; `other` covers every other resource type. -/
inductive Resource where
  | patient (id gender birthDate : Option String)
  | condition (code : CodeableConcept) (onsetDateTime : Option String)
  | observation (o : Observation)
  | other
deriving DecidableEq, Repr

/-- Embeds `observation.get('code', {}).get('coding', [{}])[0]`: the default `[{}]`
is used only when the `coding` key is missing; a present empty list raises
`IndexError` (modelled as `.error ()`). -/
def firstCoding (cc : CodeableConcept) : Except Unit Coding :=
  match cc.coding with
  | none => .ok ⟨none, none⟩
  | some [] => .error ()
  | some (c :: _) => .ok c

/-- Embeds `extract_value_from_observation` (extract_structured_biomarkers.py,
lines 22–39): quantity value, else first coding display of the coded value
(key-missing `coding` defaults to `[{}]`, a present empty list raises
`IndexError`), else `valueString`, else `None`. -/
def extract_value_from_observation (o : Observation) : Except Unit (Option PyScalar) :=
  match o.valueQuantity with
  | some q => .ok q.value
  | none =>
    match o.valueCodeableConcept with
    | some cc =>
      match cc.coding with
      | none => .ok none
      | some [] => .error ()
      | some (c :: _) => .ok (c.display.map PyScalar.str)
    | none =>
      match o.valueString with
      | some s => .ok (some (.str s))
      | none => .ok none

/-- Modelled from the spec (§4.1), for refinement comparison only: the Value
Resolver per the spec's words — quantity magnitude first, else the display
text of the first coding entry of the coded value with an *empty* coding
list yielding absent, else the free text, else absent. -/
def specValueResolver (o : Observation) : Option PyScalar :=
  match o.valueQuantity with
  | some q => q.value
  | none =>
    match o.valueCodeableConcept with
    | some cc => ((cc.coding.getD []).head?.bind (·.display)).map PyScalar.str
    | none =>
      match o.valueString with
      | some s => some (.str s)
      | none => none

/-- The observations on which the code path and the spec diverge: no
quantity, and a coded value whose `coding` list is present but empty. -/
def emptyCodedValue (o : Observation) : Bool :=
  o.valueQuantity.isNone &&
    (match o.valueCodeableConcept with
     | some cc => cc.coding == some []
     | none => false)

/-- Embeds `check_biomarker_in_observation` (verify_biomarkers.py, lines 71–90):
first scan every coding for a controlled code in `biomarker_codes`; on
failure compare every keyword against the lower-cased display of the first
coding entry and the lower-cased `code.text`. -/
def check_biomarker_in_observation (o : Observation)
    (biomarker_codes keywords : List String) : Except Unit Bool :=
  if (o.code.coding.getD []).any
      (fun c => (c.code.map (biomarker_codes.contains ·)).getD false) then
    .ok true
  else
    match firstCoding o.code with
    | .error e => .error e
    | .ok c =>
      .ok (keywords.any fun kw =>
        strContains (strLower (c.display.getD "")) (strLower kw) ||
        strContains (strLower (o.code.text.getD "")) (strLower kw))

/-- The table `BIOMARKER_CODES['breast']` (verify_biomarkers.py, lines 22–31). -/
def breastCodes : List (String × List String) :=
  [("TNM_T", ["21905-5"]),
   ("TNM_N", ["21906-3"]),
   ("TNM_M", ["21907-1"]),
   ("ER", ["16112-5"]),
   ("PR", ["16113-3"]),
   ("HER2", ["48676-1"]),
   ("Ki67", ["85319-2"]),
   ("Clinical_Stage", ["21908-9", "21902-2"])]

/-- The table `BIOMARKER_KEYWORDS['breast']` (verify_biomarkers.py, lines 47–56). -/
def breastKeywords : List (String × List String) :=
  [("TNM_T", ["primary tumor", "tumor staging", "t stage", "tnm t"]),
   ("TNM_N", ["regional lymph", "node", "n stage", "tnm n", "lymph node"]),
   ("TNM_M", ["distant metasta", "m stage", "tnm m", "metastasis"]),
   ("ER", ["estrogen receptor", "er receptor", "er status"]),
   ("PR", ["progesterone receptor", "pr receptor", "pr status"]),
   ("HER2", ["her2", "her-2", "erbb2"]),
   ("Ki67", ["ki-67", "ki67", "mib-1"]),
   ("Clinical_Stage", ["clinical stage", "pathological stage", "cancer stage"])]

/-- The table `BIOMARKER_CODES['lung']` (verify_biomarkers.py, lines 32–42). -/
def lungCodes : List (String × List String) :=
  [("TNM_T", ["21905-5"]),
   ("TNM_N", ["21906-3"]),
   ("TNM_M", ["21907-1"]),
   ("Histology", ["59847-4", "31206-6"]),
   ("EGFR", ["81691-4"]),
   ("ALK", ["80546-6"]),
   ("PDL1", ["85147-7"]),
   ("FEV1", ["20150-9"]),
   ("DLCO", ["19911-7"])]

/-- The table `BIOMARKER_KEYWORDS['lung']` (verify_biomarkers.py, lines 57–67). -/
def lungKeywords : List (String × List String) :=
  [("TNM_T", ["primary tumor", "tumor staging", "t stage", "tnm t"]),
   ("TNM_N", ["regional lymph", "node", "n stage", "tnm n", "lymph node"]),
   ("TNM_M", ["distant metasta", "m stage", "tnm m", "metastasis"]),
   ("Histology", ["histolog", "carcinoma", "adenocarcinoma", "squamous"]),
   ("EGFR", ["egfr", "epidermal growth factor"]),
   ("ALK", ["alk", "anaplastic lymphoma kinase"]),
   ("PDL1", ["pd-l1", "pdl1", "programmed death"]),
   ("FEV1", ["fev1", "forced expiratory volume"]),
   ("DLCO", ["dlco", "diffusing capacity"])]

/-- Embeds `keyword_config.get(name, [])`. -/
def lookupKw (cfg : List (String × List String)) (name : String) : List String :=
  ((cfg.find? (·.1 == name)).map (·.2)).getD []

/-- The breast biomarker record (extract_structured_biomarkers.py, lines
46–64); every field starts out `None`. -/
structure BreastRecord where
  patient_id : Option String := none
  age : Option Int := none
  gender : Option String := none
  tnm_t : Option PyScalar := none
  tnm_n : Option PyScalar := none
  tnm_m : Option PyScalar := none
  tnm_complete : Option String := none
  er_status : Option String := none
  er_percentage : Option PyScalar := none
  pr_status : Option String := none
  pr_percentage : Option PyScalar := none
  her2_status : Option PyScalar := none
  ki67_percentage : Option PyScalar := none
  clinical_stage : Option PyScalar := none
  pathological_stage : Option PyScalar := none
  histology : Option String := none
  diagnosis_date : Option String := none
deriving DecidableEq, Repr

/-- The lung biomarker record (extract_structured_biomarkers.py, lines
154–174). -/
structure LungRecord where
  patient_id : Option String := none
  age : Option Int := none
  gender : Option String := none
  tnm_t : Option PyScalar := none
  tnm_n : Option PyScalar := none
  tnm_m : Option PyScalar := none
  tnm_complete : Option String := none
  histology : Option String := none
  egfr_mutation : Option PyScalar := none
  alk_status : Option PyScalar := none
  pdl1_percentage : Option PyScalar := none
  pdl1_category : Option String := none
  fev1_percentage : Option PyScalar := none
  fev1_category : Option String := none
  dlco_percentage : Option PyScalar := none
  dlco_category : Option String := none
  clinical_stage : Option PyScalar := none
  smoking_status : Option PyScalar := none
  diagnosis_date : Option String := none
deriving DecidableEq, Repr

/-- A Python `for` loop whose body may raise: fold with exception
propagation. -/
def foldE {α β : Type} (f : β → α → Except Unit β) : β → List α → Except Unit β
  | b, [] => .ok b
  | b, a :: l =>
    match f b a with
    | .error e => .error e
    | .ok b' => foldE f b' l

/-- Dispatch conditions of the Observation branches (both extractors test
the `code` and lower-cased `display` of the *first* coding entry only). -/
def condTNMt (loinc : Option String) (display : String) : Bool :=
  loinc == some "21905-5" || strContains display "primary tumor"

def condTNMn (loinc : Option String) (display : String) : Bool :=
  loinc == some "21906-3" || strContains display "lymph node"

def condTNMm (loinc : Option String) (display : String) : Bool :=
  loinc == some "21907-1" || strContains display "metasta"

def condER (loinc : Option String) (display : String) : Bool :=
  loinc == some "16112-5" || strContains display "estrogen receptor"

def condPR (loinc : Option String) (display : String) : Bool :=
  loinc == some "16113-3" || strContains display "progesterone receptor"

def condHER2 (loinc : Option String) (display : String) : Bool :=
  loinc == some "48676-1" || strContains display "her2" || strContains display "her-2"

def condKI67 (loinc : Option String) (display : String) : Bool :=
  loinc == some "85319-2" || strContains display "ki-67" || strContains display "ki67"

def condClinStage (display : String) : Bool :=
  strContains display "clinical stage"

def condPathStage (display : String) : Bool :=
  strContains display "pathological stage"

def condHistAdeno (display : String) : Bool := strContains display "adenocarcinoma"

def condHistSquam (display : String) : Bool := strContains display "squamous"

def condHistLarge (display : String) : Bool := strContains display "large cell"

def condHistSmall (display : String) : Bool := strContains display "small cell"

def condEGFR (loinc : Option String) (display : String) : Bool :=
  loinc == some "81691-4" || strContains display "egfr"

def condALK (loinc : Option String) (display : String) : Bool :=
  loinc == some "80546-6" || strContains display "alk"

def condPDL1 (loinc : Option String) (display : String) : Bool :=
  loinc == some "85147-7" || strContains display "pd-l1" || strContains display "pdl1"

def condFEV1 (loinc : Option String) (display : String) : Bool :=
  loinc == some "20150-9" || strContains display "fev1"

def condDLCO (loinc : Option String) (display : String) : Bool :=
  loinc == some "19911-7" || strContains display "dlco"

def condClinStageLung (display : String) : Bool :=
  strContains display "clinical stage" || strContains display "cancer stage"

def condSmoking (display : String) : Bool :=
  strContains display "smoking" || strContains display "tobacco"

/-- The Patient branch shared by both extractors (lines 71–83 / 181–192):
capture id and gender; compute `age = current_year − birth_year` from the
year component of a truthy birth date, swallowing any parse failure. -/
def patientAge (y : Int) (bd : Option String) : Option Int :=
  match bd with
  | none => none
  | some s =>
    if s == "" then none
    else
      match parseInt? ⟨s.toList.takeWhile (· != '-')⟩ with
      | some birthYear => some (y - birthYear)
      | none => none

/-- One coding of the breast Condition branch (lines 88–99): a display
containing both "breast" and "cancer" captures the onset date and the
substring-classified histology. -/
def condBreastStep (onset : Option String) (r : BreastRecord) (c : Coding) :
    BreastRecord :=
  let display := strLower (c.display.getD "")
  if strContains display "breast" && strContains display "cancer" then
    let r1 := {r with diagnosis_date := onset}
    if strContains display "ductal" then
      {r1 with histology := some "Invasive Ductal Carcinoma"}
    else if strContains display "lobular" then
      {r1 with histology := some "Invasive Lobular Carcinoma"}
    else if strContains display "triple negative" then
      {r1 with histology := some "Triple Negative Breast Cancer"}
    else r1
  else r

/-- The breast Condition branch (lines 86–99): scan every coding. -/
def condBreast (r : BreastRecord) (code : CodeableConcept)
    (onset : Option String) : BreastRecord :=
  (code.coding.getD []).foldl (condBreastStep onset) r

/-- Which `elif` branch of the breast Observation dispatch (lines 109–141)
fires; `skip` is the implicit final else (no branch matches). -/
inductive BreastAct where
  | tnmT | tnmN | tnmM | er | pr | her2 | ki67 | clin | path | skip
deriving DecidableEq, Repr

/-- The `if/elif` chain of the breast Observation branch (lines 109–141),
first match wins, over the first coding's code and lower-cased display. -/
def breastDispatch (loinc : Option String) (display : String) : BreastAct :=
  if condTNMt loinc display then .tnmT
  else if condTNMn loinc display then .tnmN
  else if condTNMm loinc display then .tnmM
  else if condER loinc display then .er
  else if condPR loinc display then .pr
  else if condHER2 loinc display then .her2
  else if condKI67 loinc display then .ki67
  else if condClinStage display then .clin
  else if condPathStage display then .path
  else .skip

/-- The body of the fired breast branch.  `float(value)` in the ER/PR
categorization is *not* guarded by `try/except`: a truthy value that does
not parse raises (`.error ()`). -/
def applyBreastAct (r : BreastRecord) (value : Option PyScalar) :
    BreastAct → Except Unit BreastRecord
  | .tnmT => .ok {r with tnm_t := value}
  | .tnmN => .ok {r with tnm_n := value}
  | .tnmM => .ok {r with tnm_m := value}
  | .er =>
    if pyTruthy value then
      match value with
      | some v =>
        match pyFloat v with
        | some q =>
          .ok {r with er_percentage := value,
                      er_status := some (if 10 < q then "Positive" else "Negative")}
        | none => .error ()
      | none => .error ()
    else .ok {r with er_percentage := value}
  | .pr =>
    if pyTruthy value then
      match value with
      | some v =>
        match pyFloat v with
        | some q =>
          .ok {r with pr_percentage := value,
                      pr_status := some (if 10 < q then "Positive" else "Negative")}
        | none => .error ()
      | none => .error ()
    else .ok {r with pr_percentage := value}
  | .her2 => .ok {r with her2_status := value}
  | .ki67 => .ok {r with ki67_percentage := value}
  | .clin => .ok {r with clinical_stage := value}
  | .path => .ok {r with pathological_stage := value}
  | .skip => .ok r

/-- The breast Observation branch body on (code, display, value). -/
def obsBreastCore (r : BreastRecord) (loinc : Option String) (display : String)
    (value : Option PyScalar) : Except Unit BreastRecord :=
  applyBreastAct r value (breastDispatch loinc display)

/-- The breast Observation branch (lines 102–141): read code and display
from the first coding entry, resolve the value, then dispatch. -/
def obsBreast (r : BreastRecord) (o : Observation) : Except Unit BreastRecord :=
  match firstCoding o.code with
  | .error e => .error e
  | .ok c =>
    match extract_value_from_observation o with
    | .error e => .error e
    | .ok value => obsBreastCore r c.code (strLower (c.display.getD "")) value

/-- One entry of the breast extraction loop (lines 66–141). -/
def stepBreast (y : Int) (r : BreastRecord) (e : Resource) : Except Unit BreastRecord :=
  match e with
  | .patient id gender bd =>
    .ok {r with patient_id := id, gender := gender,
                age := (patientAge y bd).orElse (fun _ => r.age)}
  | .condition code onset => .ok (condBreast r code onset)
  | .observation o => obsBreast r o
  | .other => .ok r

/-- The post-pass (lines 143–145): `tnm_complete` is set only when all three
TNM values are truthy. -/
def finishBreast (r : BreastRecord) : BreastRecord :=
  if pyTruthy r.tnm_t && pyTruthy r.tnm_n && pyTruthy r.tnm_m then
    let s := pyStrOpt r.tnm_t ++ ", " ++ pyStrOpt r.tnm_n ++ ", " ++ pyStrOpt r.tnm_m
    {r with tnm_complete := some s}
  else r

/-- Embeds `extract_breast_cancer_biomarkers` (lines 42–147); `y` is
`datetime.now().year`. -/
def extract_breast_cancer_biomarkers (y : Int) (entries : List Resource) :
    Except Unit BreastRecord :=
  match foldE (stepBreast y) {} entries with
  | .error e => .error e
  | .ok r => .ok (finishBreast r)

/-- One coding of the lung Condition branch (lines 197–200). -/
def condLungStep (onset : Option String) (r : LungRecord) (c : Coding) :
    LungRecord :=
  let display := strLower (c.display.getD "")
  if strContains display "lung" && strContains display "cancer" then
    {r with diagnosis_date := onset}
  else r

/-- The lung Condition branch (lines 195–200). -/
def condLung (r : LungRecord) (code : CodeableConcept)
    (onset : Option String) : LungRecord :=
  (code.coding.getD []).foldl (condLungStep onset) r

/-- Which `elif` branch of the lung Observation dispatch (lines 210–291)
fires; `skip` is the implicit final else. -/
inductive LungAct where
  | tnmT | tnmN | tnmM | histAdeno | histSquam | histLarge | histSmall
  | egfr | alk | pdl1 | fev1 | dlco | clin | smoking | skip
deriving DecidableEq, Repr

/-- The `if/elif` chain of the lung Observation branch (lines 210–291),
first match wins. -/
def lungDispatch (loinc : Option String) (display : String) : LungAct :=
  if condTNMt loinc display then .tnmT
  else if condTNMn loinc display then .tnmN
  else if condTNMm loinc display then .tnmM
  else if condHistAdeno display then .histAdeno
  else if condHistSquam display then .histSquam
  else if condHistLarge display then .histLarge
  else if condHistSmall display then .histSmall
  else if condEGFR loinc display then .egfr
  else if condALK loinc display then .alk
  else if condPDL1 loinc display then .pdl1
  else if condFEV1 loinc display then .fev1
  else if condDLCO loinc display then .dlco
  else if condClinStageLung display then .clin
  else if condSmoking display then .smoking
  else .skip

/-- The body of the fired lung branch.  The PD-L1 / FEV1 / DLCO
categorizations wrap `float(value)` in `try/except: pass`, so a parse
failure keeps the raw percentage and leaves the category absent; no lung
branch can raise. -/
def applyLungAct (r : LungRecord) (value : Option PyScalar) :
    LungAct → LungRecord
  | .tnmT => {r with tnm_t := value}
  | .tnmN => {r with tnm_n := value}
  | .tnmM => {r with tnm_m := value}
  | .histAdeno => {r with histology := some "Adenocarcinoma"}
  | .histSquam => {r with histology := some "Squamous Cell Carcinoma"}
  | .histLarge => {r with histology := some "Large Cell Carcinoma"}
  | .histSmall => {r with histology := some "Small Cell Lung Cancer"}
  | .egfr => {r with egfr_mutation := value}
  | .alk => {r with alk_status := value}
  | .pdl1 =>
    let r1 := {r with pdl1_percentage := value}
    if pyTruthy value then
      match value.bind pyFloat with
      | some q =>
        let cat := if 50 ≤ q then "High (≥50%)"
                   else if 1 ≤ q then "Low (1-49%)"
                   else "Negative (<1%)"
        {r1 with pdl1_category := some cat}
      | none => r1
    else r1
  | .fev1 =>
    let r1 := {r with fev1_percentage := value}
    if pyTruthy value then
      match value.bind pyFloat with
      | some q =>
        let cat := if 80 ≤ q then "Normal"
                   else if 60 ≤ q then "Mild obstruction"
                   else if 40 ≤ q then "Moderate obstruction"
                   else "Severe obstruction"
        {r1 with fev1_category := some cat}
      | none => r1
    else r1
  | .dlco =>
    let r1 := {r with dlco_percentage := value}
    if pyTruthy value then
      match value.bind pyFloat with
      | some q =>
        let cat := if 75 ≤ q then "Normal"
                   else if 60 ≤ q then "Mild reduction"
                   else if 40 ≤ q then "Moderate reduction"
                   else "Severe reduction"
        {r1 with dlco_category := some cat}
      | none => r1
    else r1
  | .clin => {r with clinical_stage := value}
  | .smoking => {r with smoking_status := value}
  | .skip => r

/-- The lung Observation branch body on (code, display, value). -/
def obsLungCore (r : LungRecord) (loinc : Option String) (display : String)
    (value : Option PyScalar) : LungRecord :=
  applyLungAct r value (lungDispatch loinc display)

/-- The lung Observation branch (lines 203–291): read code and display from
the first coding entry, resolve the value, then dispatch. -/
def obsLung (r : LungRecord) (o : Observation) : Except Unit LungRecord :=
  match firstCoding o.code with
  | .error e => .error e
  | .ok c =>
    match extract_value_from_observation o with
    | .error e => .error e
    | .ok value => .ok (obsLungCore r c.code (strLower (c.display.getD "")) value)

/-- One entry of the lung extraction loop (lines 176–291). -/
def stepLung (y : Int) (r : LungRecord) (e : Resource) : Except Unit LungRecord :=
  match e with
  | .patient id gender bd =>
    .ok {r with patient_id := id, gender := gender,
                age := (patientAge y bd).orElse (fun _ => r.age)}
  | .condition code onset => .ok (condLung r code onset)
  | .observation o => obsLung r o
  | .other => .ok r

/-- The lung post-pass (lines 293–295). -/
def finishLung (r : LungRecord) : LungRecord :=
  if pyTruthy r.tnm_t && pyTruthy r.tnm_n && pyTruthy r.tnm_m then
    let s := pyStrOpt r.tnm_t ++ ", " ++ pyStrOpt r.tnm_n ++ ", " ++ pyStrOpt r.tnm_m
    {r with tnm_complete := some s}
  else r

/-- Embeds `extract_lung_cancer_biomarkers` (lines 150–297). -/
def extract_lung_cancer_biomarkers (y : Int) (entries : List Resource) :
    Except Unit LungRecord :=
  match foldE (stepLung y) {} entries with
  | .error e => .error e
  | .ok r => .ok (finishLung r)

/-- One configured biomarker of the inner loop of `analyze_patient_file`
(verify_biomarkers.py, lines 117–120): add its name when the check hits. -/
def biomarkStep (cfgKw : List (String × List String)) (o : Observation)
    (s' : Finset String) (p : String × List String) : Except Unit (Finset String) :=
  match check_biomarker_in_observation o p.2 (lookupKw cfgKw p.1) with
  | .error e => .error e
  | .ok true => .ok (insert p.1 s')
  | .ok false => .ok s'

/-- The inner loop of `analyze_patient_file` (verify_biomarkers.py, lines
117–120) for one Observation: check every configured biomarker and add the
matching names to the found set. -/
def obsFound (cfgCodes cfgKw : List (String × List String)) (o : Observation)
    (s : Finset String) : Except Unit (Finset String) :=
  foldE (biomarkStep cfgKw o) s cfgCodes

/-- One entry of the bundle loop of `analyze_patient_file` (lines 111–120):
only Observation resources are checked. -/
def stepFound (cfgCodes cfgKw : List (String × List String))
    (s : Finset String) (e : Resource) : Except Unit (Finset String) :=
  match e with
  | .observation o => obsFound cfgCodes cfgKw o s
  | _ => .ok s

/-- The bundle loop of `analyze_patient_file` (lines 110–120): accumulate
the set of biomarker names found across the bundle's Observations. -/
def analyze_entries (cfgCodes cfgKw : List (String × List String))
    (entries : List Resource) : Except Unit (Finset String) :=
  foldE (stepFound cfgCodes cfgKw) ∅ entries

/-- Embeds `required_biomarkers = set(BIOMARKER_CODES[cancer_type].keys())`
(verify_biomarkers.py, line 144). -/
def requiredSet (cfgCodes : List (String × List String)) : Finset String :=
  (cfgCodes.map Prod.fst).toFinset

/-- Embeds `missing = required_biomarkers - found_biomarkers` (line 158). -/
def missingOf (cfgCodes : List (String × List String)) (found : Finset String) :
    Finset String :=
  requiredSet cfgCodes \ found

/-- The per-patient statistics update (lines 153–155): every found
biomarker that has a key in `stats` is incremented once. -/
def updateStats (req : List String) (stats : String → Nat)
    (found : Finset String) : String → Nat :=
  fun b => if b ∈ req ∧ b ∈ found then stats b + 1 else stats b

/-- One patient of the dataset fold of `verify_biomarkers` (lines 149–155):
analyze the bundle and fold its found set into the statistics. -/
def statsStep (cfgCodes cfgKw : List (String × List String))
    (stats : String → Nat) (bd : List Resource) : Except Unit (String → Nat) :=
  match analyze_entries cfgCodes cfgKw bd with
  | .error e => .error e
  | .ok found => .ok (updateStats (cfgCodes.map Prod.fst) stats found)

/-- The dataset fold of `verify_biomarkers` (lines 144–155), starting from
all-zero counters keyed by the required biomarkers. -/
def runStats (cfgCodes cfgKw : List (String × List String))
    (bundles : List (List Resource)) : Except Unit (String → Nat) :=
  foldE (statsStep cfgCodes cfgKw) (fun _ => 0) bundles

/-- Concrete observation payload: one coding with the given code, quantity
value `q`. -/
def obsO (cd : String) (q : ℚ) : Observation :=
  ⟨⟨some [⟨some cd, none⟩], none⟩, some ⟨some (.num q)⟩, none, none⟩

/-- Concrete observation: one coding with the given code, quantity value `q`. -/
def obsQ (cd : String) (q : ℚ) : Resource :=
  .observation (obsO cd q)

/-- Concrete observation: one coding with the given code, string value `s`. -/
def obsS (cd : String) (s : String) : Resource :=
  .observation ⟨⟨some [⟨some cd, none⟩], none⟩, none, none, some s⟩

/-! Section: Fold infrastructure -/

theorem foldE_append {α β : Type} (f : β → α → Except Unit β) (l₁ l₂ : List α)
    (b : β) :
    foldE f b (l₁ ++ l₂) =
      (match foldE f b l₁ with
       | .error e => .error e
       | .ok b' => foldE f b' l₂) := by
  induction l₁ generalizing b with
  | nil => simp [foldE]
  | cons a l ih =>
    simp only [List.cons_append, foldE]
    cases f b a with
    | error e => rfl
    | ok b' => exact ih b'

/-- Unfolding equation for `foldE` on a cons cell. -/
theorem foldE_cons {α β : Type} (f : β → α → Except Unit β) (b : β) (a : α)
    (l : List α) :
    foldE f b (a :: l) =
      (match f b a with
       | .error e => .error e
       | .ok b' => foldE f b' l) := by
  cases hfa : f b a <;> simp [foldE, hfa]

/-- If every step of a fold preserves a projection `g`, the whole fold does. -/
theorem foldE_fix {α β γ : Type} (f : β → α → Except Unit β) (g : β → γ)
    (l : List α) (H : ∀ b a b', a ∈ l → f b a = .ok b' → g b' = g b) :
    ∀ b b', foldE f b l = .ok b' → g b' = g b := by
  induction l with
  | nil => intro b b' h; cases h; rfl
  | cons a l ih =>
    intro b b' h
    simp only [foldE] at h
    cases hf : f b a with
    | error e => rw [hf] at h; cases h
    | ok b₁ =>
      rw [hf] at h
      have h1 : g b₁ = g b := H b a b₁ (List.mem_cons_self a l) hf
      have h2 : g b' = g b₁ :=
        ih (fun b a b' ha => H b a b' (List.mem_cons_of_mem _ ha)) b₁ b' h
      rw [h2, h1]

/-! Section: Frame lemmas: which record fields each step can touch -/

/-- One coding of the breast Condition branch writes only the diagnosis
date and the histology. -/
theorem condBreastStep_shape (onset : Option String) (r : BreastRecord)
    (c : Coding) :
    ∃ d hi, condBreastStep onset r c =
      {r with diagnosis_date := d, histology := hi} := by
  unfold condBreastStep
  dsimp only
  split_ifs
  · exact ⟨onset, some "Invasive Ductal Carcinoma", rfl⟩
  · exact ⟨onset, some "Invasive Lobular Carcinoma", rfl⟩
  · exact ⟨onset, some "Triple Negative Breast Cancer", rfl⟩
  · exact ⟨onset, r.histology, rfl⟩
  · exact ⟨r.diagnosis_date, r.histology, rfl⟩

theorem condBreast_foldl_shape (onset : Option String) (l : List Coding) :
    ∀ r : BreastRecord, ∃ d hi,
      l.foldl (condBreastStep onset) r =
        {r with diagnosis_date := d, histology := hi} := by
  induction l with
  | nil => intro r; exact ⟨r.diagnosis_date, r.histology, rfl⟩
  | cons c t ih =>
    intro r
    obtain ⟨d1, h1, e1⟩ := condBreastStep_shape onset r c
    obtain ⟨d2, h2, e2⟩ := ih {r with diagnosis_date := d1, histology := h1}
    exact ⟨d2, h2, by rw [List.foldl_cons, e1, e2]⟩

/-- The whole breast Condition branch writes only the diagnosis date and
the histology. -/
theorem condBreast_fields (r : BreastRecord) (code : CodeableConcept)
    (onset : Option String) :
    ∃ d hi, condBreast r code onset =
      {r with diagnosis_date := d, histology := hi} :=
  condBreast_foldl_shape onset (code.coding.getD []) r

theorem condBreast_tnm_complete (r : BreastRecord) (code : CodeableConcept)
    (onset : Option String) :
    (condBreast r code onset).tnm_complete = r.tnm_complete := by
  obtain ⟨d, hi, he⟩ := condBreast_fields r code onset
  rw [he]

theorem applyBreastAct_tnm_complete (r : BreastRecord) (value : Option PyScalar)
    (a : BreastAct) (r' : BreastRecord) (h : applyBreastAct r value a = .ok r') :
    r'.tnm_complete = r.tnm_complete := by
  cases a
  all_goals simp only [applyBreastAct] at h
  all_goals repeat' split at h
  all_goals first
  | (cases h; rfl)
  | simp at h

theorem obsBreastCore_tnm_complete (r : BreastRecord) (loinc : Option String)
    (display : String) (value : Option PyScalar) (r' : BreastRecord)
    (h : obsBreastCore r loinc display value = .ok r') :
    r'.tnm_complete = r.tnm_complete :=
  applyBreastAct_tnm_complete r value (breastDispatch loinc display) r' h

theorem obsBreast_tnm_complete (r : BreastRecord) (o : Observation)
    (r' : BreastRecord) (h : obsBreast r o = .ok r') :
    r'.tnm_complete = r.tnm_complete := by
  unfold obsBreast at h
  cases hfc : firstCoding o.code with
  | error e => rw [hfc] at h; cases h
  | ok c =>
    rw [hfc] at h
    cases hv : extract_value_from_observation o with
    | error e => rw [hv] at h; cases h
    | ok value =>
      rw [hv] at h
      exact obsBreastCore_tnm_complete _ _ _ _ _ h

theorem stepBreast_tnm_complete (y : Int) (r : BreastRecord) (e : Resource)
    (r' : BreastRecord) (h : stepBreast y r e = .ok r') :
    r'.tnm_complete = r.tnm_complete := by
  cases e with
  | patient id gender bd => cases h; rfl
  | condition code onset => cases h; exact condBreast_tnm_complete r code onset
  | observation o => exact obsBreast_tnm_complete r o r' h
  | other => cases h; rfl

/-- One coding of the lung Condition branch writes only the diagnosis
date. -/
theorem condLungStep_shape (onset : Option String) (r : LungRecord)
    (c : Coding) :
    ∃ d, condLungStep onset r c = {r with diagnosis_date := d} := by
  unfold condLungStep
  dsimp only
  split_ifs
  · exact ⟨onset, rfl⟩
  · exact ⟨r.diagnosis_date, rfl⟩

theorem condLung_foldl_shape (onset : Option String) (l : List Coding) :
    ∀ r : LungRecord, ∃ d,
      l.foldl (condLungStep onset) r = {r with diagnosis_date := d} := by
  induction l with
  | nil => intro r; exact ⟨r.diagnosis_date, rfl⟩
  | cons c t ih =>
    intro r
    obtain ⟨d1, e1⟩ := condLungStep_shape onset r c
    obtain ⟨d2, e2⟩ := ih {r with diagnosis_date := d1}
    exact ⟨d2, by rw [List.foldl_cons, e1, e2]⟩

/-- The whole lung Condition branch writes only the diagnosis date. -/
theorem condLung_fields (r : LungRecord) (code : CodeableConcept)
    (onset : Option String) :
    ∃ d, condLung r code onset = {r with diagnosis_date := d} :=
  condLung_foldl_shape onset (code.coding.getD []) r

theorem condLung_tnm_complete (r : LungRecord) (code : CodeableConcept)
    (onset : Option String) :
    (condLung r code onset).tnm_complete = r.tnm_complete := by
  obtain ⟨d, he⟩ := condLung_fields r code onset
  rw [he]

theorem applyLungAct_tnm_complete (r : LungRecord) (value : Option PyScalar)
    (a : LungAct) :
    (applyLungAct r value a).tnm_complete = r.tnm_complete := by
  cases a
  all_goals simp only [applyLungAct]
  all_goals repeat' split
  all_goals rfl

theorem obsLungCore_tnm_complete (r : LungRecord) (loinc : Option String)
    (display : String) (value : Option PyScalar) :
    (obsLungCore r loinc display value).tnm_complete = r.tnm_complete :=
  applyLungAct_tnm_complete r value (lungDispatch loinc display)

theorem obsLung_tnm_complete (r : LungRecord) (o : Observation)
    (r' : LungRecord) (h : obsLung r o = .ok r') :
    r'.tnm_complete = r.tnm_complete := by
  unfold obsLung at h
  cases hfc : firstCoding o.code with
  | error e => rw [hfc] at h; cases h
  | ok c =>
    rw [hfc] at h
    cases hv : extract_value_from_observation o with
    | error e => rw [hv] at h; cases h
    | ok value =>
      rw [hv] at h
      cases h
      exact obsLungCore_tnm_complete r c.code (strLower (c.display.getD "")) value

theorem stepLung_tnm_complete (y : Int) (r : LungRecord) (e : Resource)
    (r' : LungRecord) (h : stepLung y r e = .ok r') :
    r'.tnm_complete = r.tnm_complete := by
  cases e with
  | patient id gender bd => cases h; rfl
  | condition code onset => cases h; exact condLung_tnm_complete r code onset
  | observation o => exact obsLung_tnm_complete r o r' h
  | other => cases h; rfl

theorem finishBreast_tnm_t (r : BreastRecord) :
    (finishBreast r).tnm_t = r.tnm_t := by
  unfold finishBreast; split <;> rfl

theorem finishBreast_tnm_n (r : BreastRecord) :
    (finishBreast r).tnm_n = r.tnm_n := by
  unfold finishBreast; split <;> rfl

theorem finishBreast_tnm_m (r : BreastRecord) :
    (finishBreast r).tnm_m = r.tnm_m := by
  unfold finishBreast; split <;> rfl

theorem finishBreast_er_percentage (r : BreastRecord) :
    (finishBreast r).er_percentage = r.er_percentage := by
  unfold finishBreast; split <;> rfl

theorem finishBreast_er_status (r : BreastRecord) :
    (finishBreast r).er_status = r.er_status := by
  unfold finishBreast; split <;> rfl

theorem finishBreast_pr_percentage (r : BreastRecord) :
    (finishBreast r).pr_percentage = r.pr_percentage := by
  unfold finishBreast; split <;> rfl

theorem finishBreast_pr_status (r : BreastRecord) :
    (finishBreast r).pr_status = r.pr_status := by
  unfold finishBreast; split <;> rfl

theorem finishLung_tnm_t (r : LungRecord) :
    (finishLung r).tnm_t = r.tnm_t := by
  unfold finishLung; split <;> rfl

theorem finishLung_tnm_n (r : LungRecord) :
    (finishLung r).tnm_n = r.tnm_n := by
  unfold finishLung; split <;> rfl

theorem finishLung_tnm_m (r : LungRecord) :
    (finishLung r).tnm_m = r.tnm_m := by
  unfold finishLung; split <;> rfl

/-- After the post-pass, `tnm_complete` (starting from absent) is populated
exactly when all three TNM values are truthy. -/
theorem finishBreast_complete_iff (r : BreastRecord) (h0 : r.tnm_complete = none) :
    ((finishBreast r).tnm_complete ≠ none ↔
      (pyTruthy r.tnm_t = true ∧ pyTruthy r.tnm_n = true ∧ pyTruthy r.tnm_m = true)) := by
  unfold finishBreast
  split
  · next hc =>
    simp only [Bool.and_eq_true] at hc
    refine iff_of_true ?_ ⟨hc.1.1, hc.1.2, hc.2⟩
    simp
  · next hc =>
    simp only [Bool.and_eq_true, not_and] at hc
    constructor
    · intro hn
      exact absurd h0 hn
    · rintro ⟨h1, h2, h3⟩
      exact absurd h3 (hc ⟨h1, h2⟩)

theorem finishLung_complete_iff (r : LungRecord) (h0 : r.tnm_complete = none) :
    ((finishLung r).tnm_complete ≠ none ↔
      (pyTruthy r.tnm_t = true ∧ pyTruthy r.tnm_n = true ∧ pyTruthy r.tnm_m = true)) := by
  unfold finishLung
  split
  · next hc =>
    simp only [Bool.and_eq_true] at hc
    refine iff_of_true ?_ ⟨hc.1.1, hc.1.2, hc.2⟩
    simp
  · next hc =>
    simp only [Bool.and_eq_true, not_and] at hc
    constructor
    · intro hn
      exact absurd h0 hn
    · rintro ⟨h1, h2, h3⟩
      exact absurd h3 (hc ⟨h1, h2⟩)

/-! Section: The dispatch action of an entry, and ER / PD-L1 frame lemmas -/

/-- The breast dispatch action an entry triggers (`none` for non-Observation
entries and for Observations whose first-coding lookup raises). -/
def entryBreastAct (e : Resource) : Option BreastAct :=
  match e with
  | .observation o =>
    match firstCoding o.code with
    | .error _ => none
    | .ok c => some (breastDispatch c.code (strLower (c.display.getD "")))
  | _ => none

/-- The lung dispatch action an entry triggers. -/
def entryLungAct (e : Resource) : Option LungAct :=
  match e with
  | .observation o =>
    match firstCoding o.code with
    | .error _ => none
    | .ok c => some (lungDispatch c.code (strLower (c.display.getD "")))
  | _ => none

/-- The record field each value-writing breast action stores the resolved
value into (`none` for `skip`, which writes nothing). -/
def breastField : BreastAct → Option (BreastRecord → Option PyScalar)
  | .tnmT => some (·.tnm_t)
  | .tnmN => some (·.tnm_n)
  | .tnmM => some (·.tnm_m)
  | .er => some (·.er_percentage)
  | .pr => some (·.pr_percentage)
  | .her2 => some (·.her2_status)
  | .ki67 => some (·.ki67_percentage)
  | .clin => some (·.clinical_stage)
  | .path => some (·.pathological_stage)
  | .skip => none

/-- The record field each value-writing lung action stores the resolved
value into (`none` for the histology branches, which write a constant
label rather than the value, and for `skip`). -/
def lungField : LungAct → Option (LungRecord → Option PyScalar)
  | .tnmT => some (·.tnm_t)
  | .tnmN => some (·.tnm_n)
  | .tnmM => some (·.tnm_m)
  | .histAdeno => none
  | .histSquam => none
  | .histLarge => none
  | .histSmall => none
  | .egfr => some (·.egfr_mutation)
  | .alk => some (·.alk_status)
  | .pdl1 => some (·.pdl1_percentage)
  | .fev1 => some (·.fev1_percentage)
  | .dlco => some (·.dlco_percentage)
  | .clin => some (·.clinical_stage)
  | .smoking => some (·.smoking_status)
  | .skip => none

/-- Every value-writing breast branch that completes without raising stores
the resolved value in its field. -/
theorem applyBreastAct_sets (r : BreastRecord) (v : Option PyScalar)
    (a : BreastAct) (f : BreastRecord → Option PyScalar)
    (hf : breastField a = some f) (r' : BreastRecord)
    (h : applyBreastAct r v a = .ok r') : f r' = v := by
  cases a
  all_goals simp only [breastField] at hf
  all_goals cases hf
  all_goals simp only [applyBreastAct] at h
  all_goals repeat' split at h
  all_goals first
  | (cases h; rfl)
  | simp at h

/-- A breast branch other than `a` leaves the field of `a` unchanged. -/
theorem applyBreastAct_frame (r : BreastRecord) (v : Option PyScalar)
    (b a : BreastAct) (f : BreastRecord → Option PyScalar)
    (hf : breastField a = some f) (hne : b ≠ a) (r' : BreastRecord)
    (h : applyBreastAct r v b = .ok r') : f r' = f r := by
  cases a
  all_goals simp only [breastField] at hf
  all_goals cases hf
  all_goals cases b
  all_goals try exact absurd rfl hne
  all_goals simp only [applyBreastAct] at h
  all_goals repeat' split at h
  all_goals first
  | (cases h; rfl)
  | simp at h

/-- An Observation entry that dispatches to action `a` stores its resolved
value in the field of `a`. -/
theorem stepBreast_act (y : Int) (r : BreastRecord) (o : Observation)
    (r' : BreastRecord) (a : BreastAct) (f : BreastRecord → Option PyScalar)
    (v : Option PyScalar) (hao : entryBreastAct (.observation o) = some a)
    (hf : breastField a = some f)
    (hv : extract_value_from_observation o = .ok v)
    (h : stepBreast y r (.observation o) = .ok r') : f r' = v := by
  have h' : obsBreast r o = .ok r' := h
  unfold obsBreast at h'
  cases hfc : firstCoding o.code with
  | error u =>
    have hea : entryBreastAct (.observation o) = none := by
      simp only [entryBreastAct]; rw [hfc]
    rw [hea] at hao
    cases hao
  | ok c =>
    rw [hfc] at h'
    rw [hv] at h'
    have hea : entryBreastAct (.observation o) =
        some (breastDispatch c.code (strLower (c.display.getD ""))) := by
      simp only [entryBreastAct]; rw [hfc]
    have hba : breastDispatch c.code (strLower (c.display.getD "")) = a :=
      Option.some.inj (hea.symm.trans hao)
    have h'' : applyBreastAct r v a = .ok r' := by rw [← hba]; exact h'
    exact applyBreastAct_sets r v a f hf r' h''

/-- A step that does not dispatch to action `a` leaves the field of `a`
unchanged. -/
theorem stepBreast_frame (y : Int) (r : BreastRecord) (e : Resource)
    (r' : BreastRecord) (a : BreastAct) (f : BreastRecord → Option PyScalar)
    (hf : breastField a = some f) (hne : entryBreastAct e ≠ some a)
    (h : stepBreast y r e = .ok r') : f r' = f r := by
  cases e with
  | patient id gender bd =>
    cases h
    cases a <;> simp only [breastField] at hf <;> cases hf <;> rfl
  | other => cases h; rfl
  | condition code onset =>
    cases h
    obtain ⟨d, hi, he⟩ := condBreast_fields r code onset
    rw [he]
    cases a <;> simp only [breastField] at hf <;> cases hf <;> rfl
  | observation o =>
    have h' : obsBreast r o = .ok r' := h
    unfold obsBreast at h'
    cases hfc : firstCoding o.code with
    | error u => rw [hfc] at h'; cases h'
    | ok c =>
      rw [hfc] at h'
      cases hv : extract_value_from_observation o with
      | error u => rw [hv] at h'; cases h'
      | ok v =>
        rw [hv] at h'
        have hea : entryBreastAct (.observation o) =
            some (breastDispatch c.code (strLower (c.display.getD ""))) := by
          simp only [entryBreastAct]; rw [hfc]
        have h'' : applyBreastAct r v
            (breastDispatch c.code (strLower (c.display.getD ""))) = .ok r' := h'
        exact applyBreastAct_frame r v _ a f hf
          (fun hba => hne (hea.trans (congrArg some hba))) r' h''

/-- Every value-writing lung branch stores the resolved value in its
field. -/
theorem applyLungAct_sets (r : LungRecord) (v : Option PyScalar) (a : LungAct)
    (f : LungRecord → Option PyScalar) (hf : lungField a = some f) :
    f (applyLungAct r v a) = v := by
  cases a
  all_goals simp only [lungField] at hf
  all_goals cases hf
  all_goals simp only [applyLungAct]
  all_goals repeat' split
  all_goals rfl

/-- A lung branch other than `a` leaves the field of `a` unchanged. -/
theorem applyLungAct_frame (r : LungRecord) (v : Option PyScalar)
    (b a : LungAct) (f : LungRecord → Option PyScalar)
    (hf : lungField a = some f) (hne : b ≠ a) :
    f (applyLungAct r v b) = f r := by
  cases a
  all_goals simp only [lungField] at hf
  all_goals cases hf
  all_goals cases b
  all_goals try exact absurd rfl hne
  all_goals simp only [applyLungAct]
  all_goals repeat' split
  all_goals rfl

/-- An Observation entry that dispatches to lung action `a` stores its
resolved value in the field of `a`. -/
theorem stepLung_act (y : Int) (r : LungRecord) (o : Observation)
    (r' : LungRecord) (a : LungAct) (f : LungRecord → Option PyScalar)
    (v : Option PyScalar) (hao : entryLungAct (.observation o) = some a)
    (hf : lungField a = some f)
    (hv : extract_value_from_observation o = .ok v)
    (h : stepLung y r (.observation o) = .ok r') : f r' = v := by
  have h' : obsLung r o = .ok r' := h
  unfold obsLung at h'
  cases hfc : firstCoding o.code with
  | error u =>
    have hea : entryLungAct (.observation o) = none := by
      simp only [entryLungAct]; rw [hfc]
    rw [hea] at hao
    cases hao
  | ok c =>
    rw [hfc] at h'
    rw [hv] at h'
    cases h'
    have hea : entryLungAct (.observation o) =
        some (lungDispatch c.code (strLower (c.display.getD ""))) := by
      simp only [entryLungAct]; rw [hfc]
    have hba : lungDispatch c.code (strLower (c.display.getD "")) = a :=
      Option.some.inj (hea.symm.trans hao)
    show f (applyLungAct r v (lungDispatch c.code (strLower (c.display.getD "")))) = v
    rw [hba]
    exact applyLungAct_sets r v a f hf

/-- A lung step that does not dispatch to action `a` leaves the field of
`a` unchanged. -/
theorem stepLung_frame (y : Int) (r : LungRecord) (e : Resource)
    (r' : LungRecord) (a : LungAct) (f : LungRecord → Option PyScalar)
    (hf : lungField a = some f) (hne : entryLungAct e ≠ some a)
    (h : stepLung y r e = .ok r') : f r' = f r := by
  cases e with
  | patient id gender bd =>
    cases h
    cases a <;> simp only [lungField] at hf <;> cases hf <;> rfl
  | other => cases h; rfl
  | condition code onset =>
    cases h
    obtain ⟨d, he⟩ := condLung_fields r code onset
    rw [he]
    cases a <;> simp only [lungField] at hf <;> cases hf <;> rfl
  | observation o =>
    have h' : obsLung r o = .ok r' := h
    unfold obsLung at h'
    cases hfc : firstCoding o.code with
    | error u => rw [hfc] at h'; cases h'
    | ok c =>
      rw [hfc] at h'
      cases hv : extract_value_from_observation o with
      | error u => rw [hv] at h'; cases h'
      | ok v =>
        rw [hv] at h'
        cases h'
        have hea : entryLungAct (.observation o) =
            some (lungDispatch c.code (strLower (c.display.getD ""))) := by
          simp only [entryLungAct]; rw [hfc]
        show f (applyLungAct r v (lungDispatch c.code (strLower (c.display.getD "")))) = f r
        exact applyLungAct_frame r v _ a f hf
          (fun hba => hne (hea.trans (congrArg some hba)))

/-- The post-pass writes only `tnm_complete`. -/
theorem finishBreast_fields (r : BreastRecord) :
    ∃ t, finishBreast r = {r with tnm_complete := t} := by
  unfold finishBreast
  split
  · exact ⟨_, rfl⟩
  · exact ⟨r.tnm_complete, rfl⟩

theorem finishLung_fields (r : LungRecord) :
    ∃ t, finishLung r = {r with tnm_complete := t} := by
  unfold finishLung
  split
  · exact ⟨_, rfl⟩
  · exact ⟨r.tnm_complete, rfl⟩

/-! Section: Coverage Verifier: set accumulation and statistics -/

/-- A fold whose step only adds elements: starting it from `s` yields the
union of `s` with what it produces from `∅`. -/
theorem foldE_union {α : Type}
    (f : Finset String → α → Except Unit (Finset String))
    (H : ∀ s a, f s a = (f ∅ a).map (s ∪ ·)) (l : List α) :
    ∀ s, foldE f s l = (foldE f ∅ l).map (s ∪ ·) := by
  induction l with
  | nil =>
    intro s
    simp [foldE, Except.map]
  | cons a t ih =>
    intro s
    simp only [foldE]
    rw [H s a]
    cases hz : f ∅ a with
    | error e => rfl
    | ok m =>
      simp only [Except.map]
      rw [ih (s ∪ m), ih m]
      cases hw : foldE f ∅ t with
      | error e => rfl
      | ok m' => simp [Except.map, Finset.union_assoc]

theorem biomarkStep_union (cfgKw : List (String × List String)) (o : Observation)
    (s : Finset String) (p : String × List String) :
    biomarkStep cfgKw o s p = (biomarkStep cfgKw o ∅ p).map (s ∪ ·) := by
  unfold biomarkStep
  cases check_biomarker_in_observation o p.2 (lookupKw cfgKw p.1) with
  | error e => rfl
  | ok b =>
    cases b with
    | false => simp [Except.map]
    | true =>
      simp only [Except.map, Except.ok.injEq]
      ext x
      simp only [Finset.mem_union, Finset.mem_insert, Finset.not_mem_empty,
        or_false]
      tauto

theorem stepFound_union (cfgCodes cfgKw : List (String × List String))
    (s : Finset String) (e : Resource) :
    stepFound cfgCodes cfgKw s e = (stepFound cfgCodes cfgKw ∅ e).map (s ∪ ·) := by
  cases e with
  | observation o =>
    show obsFound cfgCodes cfgKw o s = (obsFound cfgCodes cfgKw o ∅).map (s ∪ ·)
    exact foldE_union _ (biomarkStep_union cfgKw o) cfgCodes s
  | patient id gender bd => simp [stepFound, Except.map]
  | condition code onset => simp [stepFound, Except.map]
  | other => simp [stepFound, Except.map]

/-- Counting predicate: bundles in which biomarker `B` is found. -/
def foundIn (cfgCodes cfgKw : List (String × List String)) (B : String)
    (bd : List Resource) : Bool :=
  match analyze_entries cfgCodes cfgKw bd with
  | .ok s => B ∈ s
  | .error _ => false

/-- Generalized statistics fold: the final counter of a required biomarker
is the initial counter plus the number of bundles in which it is found. -/
theorem foldStats_count (cfgCodes cfgKw : List (String × List String))
    (B : String) (hB : B ∈ cfgCodes.map Prod.fst) (bundles : List (List Resource)) :
    ∀ (init stats : String → Nat),
      foldE (statsStep cfgCodes cfgKw) init bundles = .ok stats →
      stats B = init B + bundles.countP (foundIn cfgCodes cfgKw B) := by
  induction bundles with
  | nil =>
    intro init stats h
    cases h
    simp
  | cons bd t ih =>
    intro init stats h
    simp only [foldE, statsStep] at h
    cases ha : analyze_entries cfgCodes cfgKw bd with
    | error e => rw [ha] at h; cases h
    | ok found =>
      rw [ha] at h
      have := ih (updateStats (cfgCodes.map Prod.fst) init found) stats h
      rw [this]
      rw [List.countP_cons]
      unfold updateStats foundIn
      rw [ha]
      by_cases hf : B ∈ found
      · rw [if_pos ⟨hB, hf⟩]
        simp [hf]
        omega
      · rw [if_neg (fun hand => hf hand.2)]
        simp [hf]

/-! Section: Concept Matcher lemmas -/

/-- The Verifier's controlled-code loop scans every coding entry: a hit on
any of them (exact string equality) returns true, keywords regardless. -/
theorem check_code_hit (o : Observation) (codes kws : List String) (c : Coding)
    (cd : String) (hm : c ∈ o.code.coding.getD []) (hc : c.code = some cd)
    (hcd : cd ∈ codes) :
    check_biomarker_in_observation o codes kws = .ok true := by
  unfold check_biomarker_in_observation
  have hany : ((o.code.coding.getD []).any
      (fun c => (c.code.map (codes.contains ·)).getD false)) = true := by
    refine List.any_eq_true.mpr ⟨c, hm, ?_⟩
    rw [hc]
    simpa using hcd
  rw [hany]
  rfl

/-- Evaluation of `firstCoding` on a nonempty present coding list: its head. -/
theorem firstCoding_cons (cc : CodeableConcept) (c : Coding) (rest : List Coding)
    (h : cc.coding = some (c :: rest)) : firstCoding cc = .ok c := by
  unfold firstCoding
  rw [h]

/-- When no coding carries a controlled code, the Verifier's result is the
keyword scan over the first coding's lower-cased display and the
lower-cased free-text label: true exactly when some keyword is a substring
of one of them. -/
theorem check_fallback_iff (o : Observation) (codes kws : List String)
    (c : Coding) (rest : List Coding) (hcode : o.code.coding = some (c :: rest))
    (hno : ∀ c' ∈ (c :: rest : List Coding),
      ((c'.code.map (codes.contains ·)).getD false) = false) :
    (check_biomarker_in_observation o codes kws = .ok true ↔
      ∃ kw ∈ kws,
        (strContains (strLower (c.display.getD "")) (strLower kw) ||
         strContains (strLower (o.code.text.getD "")) (strLower kw)) = true) := by
  unfold check_biomarker_in_observation
  rw [hcode]
  have hany : ((some (c :: rest) : Option (List Coding)).getD []).any
      (fun c => (c.code.map (codes.contains ·)).getD false) = false := by
    rw [Option.getD_some]
    exact List.any_eq_false.mpr (fun x hx => by rw [hno x hx]; exact Bool.false_ne_true)
  rw [hany]
  rw [firstCoding_cons o.code c rest hcode]
  show Except.ok (kws.any _) = Except.ok true ↔ _
  simp only [Except.ok.injEq]
  exact List.any_eq_true

/-- With a present-but-empty coding list, the Verifier's check raises
(`IndexError` on `[{}][0]`-less indexing) whenever the code loop misses. -/
theorem check_empty_coding (o : Observation) (codes kws : List String)
    (h : o.code.coding = some []) :
    check_biomarker_in_observation o codes kws = .error () := by
  unfold check_biomarker_in_observation
  rw [h]
  show (if ([] : List Coding).any _ = true then _ else _) = _
  rw [if_neg (by simp)]
  unfold firstCoding
  rw [h]

/-- Whenever the coding list is not present-and-empty, the check is total:
it returns some boolean. -/
theorem check_total (o : Observation) (codes kws : List String)
    (h : o.code.coding ≠ some []) :
    (check_biomarker_in_observation o codes kws).isOk = true := by
  unfold check_biomarker_in_observation
  by_cases hany : ((o.code.coding.getD []).any
      (fun c => (c.code.map (codes.contains ·)).getD false)) = true
  · rw [hany]; rfl
  · rw [if_neg hany]
    cases hc : o.code.coding with
    | none =>
      have : firstCoding o.code = .ok ⟨none, none⟩ := by
        unfold firstCoding; rw [hc]
      rw [this]
      rfl
    | some l =>
      cases l with
      | nil => exact absurd hc h
      | cons c rest =>
        rw [firstCoding_cons o.code c rest hc]
        rfl

/-- The extraction engine's Observation branch reads only the first coding
entry: extra coding entries beyond the head are invisible to it. -/
theorem stepBreast_first_coding_only (y : Int) (r : BreastRecord) (c : Coding)
    (rest : List Coding) (txt : Option String) (vq : Option Quantity)
    (vcc : Option CodeableConcept) (vs : Option String) :
    stepBreast y r (.observation ⟨⟨some (c :: rest), txt⟩, vq, vcc, vs⟩) =
    stepBreast y r (.observation ⟨⟨some [c], txt⟩, vq, vcc, vs⟩) := rfl

/-- The extraction engine's Observation branch never reads the free-text
label `code.text`. -/
theorem stepBreast_text_ignored (y : Int) (r : BreastRecord)
    (cod : Option (List Coding)) (txt txt' : Option String)
    (vq : Option Quantity) (vcc : Option CodeableConcept) (vs : Option String) :
    stepBreast y r (.observation ⟨⟨cod, txt⟩, vq, vcc, vs⟩) =
    stepBreast y r (.observation ⟨⟨cod, txt'⟩, vq, vcc, vs⟩) := rfl

/-! Section: ER/PR branch on a numeric value -/

theorem applyBreastAct_er_num (r : BreastRecord) (q : ℚ) (hq : q ≠ 0) :
    applyBreastAct r (some (.num q)) BreastAct.er =
      .ok {r with er_percentage := some (.num q),
                  er_status := some (if 10 < q then "Positive" else "Negative")} := by
  have ht : pyTruthy (some (.num q)) = true := by
    simp [pyTruthy, hq]
  simp only [applyBreastAct, ht, if_true, pyFloat]

theorem applyBreastAct_pr_num (r : BreastRecord) (q : ℚ) (hq : q ≠ 0) :
    applyBreastAct r (some (.num q)) BreastAct.pr =
      .ok {r with pr_percentage := some (.num q),
                  pr_status := some (if 10 < q then "Positive" else "Negative")} := by
  have ht : pyTruthy (some (.num q)) = true := by
    simp [pyTruthy, hq]
  simp only [applyBreastAct, ht, if_true, pyFloat]

/-! Section: Extraction-level TNM completeness -/

theorem extract_breast_tnm_iff (y : Int) (entries : List Resource)
    (r : BreastRecord) (h : extract_breast_cancer_biomarkers y entries = .ok r) :
    (r.tnm_complete ≠ none ↔
      (pyTruthy r.tnm_t = true ∧ pyTruthy r.tnm_n = true ∧ pyTruthy r.tnm_m = true)) := by
  unfold extract_breast_cancer_biomarkers at h
  cases hf : foldE (stepBreast y) {} entries with
  | error e => rw [hf] at h; cases h
  | ok r0 =>
    rw [hf] at h
    cases h
    have h0 : r0.tnm_complete = none :=
      foldE_fix (stepBreast y) (·.tnm_complete) entries
        (fun b a b' _ hb => stepBreast_tnm_complete y b a b' hb) {} r0 hf
    rw [finishBreast_tnm_t, finishBreast_tnm_n, finishBreast_tnm_m]
    exact finishBreast_complete_iff r0 h0

theorem extract_lung_tnm_iff (y : Int) (entries : List Resource)
    (r : LungRecord) (h : extract_lung_cancer_biomarkers y entries = .ok r) :
    (r.tnm_complete ≠ none ↔
      (pyTruthy r.tnm_t = true ∧ pyTruthy r.tnm_n = true ∧ pyTruthy r.tnm_m = true)) := by
  unfold extract_lung_cancer_biomarkers at h
  cases hf : foldE (stepLung y) {} entries with
  | error e => rw [hf] at h; cases h
  | ok r0 =>
    rw [hf] at h
    cases h
    have h0 : r0.tnm_complete = none :=
      foldE_fix (stepLung y) (·.tnm_complete) entries
        (fun b a b' _ hb => stepLung_tnm_complete y b a b' hb) {} r0 hf
    rw [finishLung_tnm_t, finishLung_tnm_n, finishLung_tnm_m]
    exact finishLung_complete_iff r0 h0

/-- Extraction over a bundle ending in `e`: fold the prefix, step `e`,
finish. -/
theorem extract_breast_append (y : Int) (es : List Resource) (e : Resource) :
    extract_breast_cancer_biomarkers y (es ++ [e]) =
      (match foldE (stepBreast y) {} es with
       | .error u => .error u
       | .ok r0 =>
         match stepBreast y r0 e with
         | .error u => .error u
         | .ok r1 => .ok (finishBreast r1)) := by
  unfold extract_breast_cancer_biomarkers
  rw [foldE_append]
  cases hf : foldE (stepBreast y) {} es with
  | error u => rfl
  | ok r0 =>
    show (match foldE (stepBreast y) r0 [e] with
          | .error u => (.error u : Except Unit BreastRecord)
          | .ok r => .ok (finishBreast r)) =
         (match stepBreast y r0 e with
          | .error u => .error u
          | .ok r1 => .ok (finishBreast r1))
    cases hs : stepBreast y r0 e with
    | error u => simp [foldE, hs]
    | ok r1 => simp [foldE, hs]

theorem extract_lung_append (y : Int) (es : List Resource) (e : Resource) :
    extract_lung_cancer_biomarkers y (es ++ [e]) =
      (match foldE (stepLung y) {} es with
       | .error u => .error u
       | .ok r0 =>
         match stepLung y r0 e with
         | .error u => .error u
         | .ok r1 => .ok (finishLung r1)) := by
  unfold extract_lung_cancer_biomarkers
  rw [foldE_append]
  cases hf : foldE (stepLung y) {} es with
  | error u => rfl
  | ok r0 =>
    show (match foldE (stepLung y) r0 [e] with
          | .error u => (.error u : Except Unit LungRecord)
          | .ok r => .ok (finishLung r)) =
         (match stepLung y r0 e with
          | .error u => .error u
          | .ok r1 => .ok (finishLung r1))
    cases hs : stepLung y r0 e with
    | error u => simp [foldE, hs]
    | ok r1 => simp [foldE, hs]

/-- Specialization of `extract_breast_append` to a successful prefix fold. -/
theorem extract_breast_append_ok (y : Int) (es : List Resource) (e : Resource)
    (r0 : BreastRecord) (hf : foldE (stepBreast y) {} es = .ok r0) :
    extract_breast_cancer_biomarkers y (es ++ [e]) =
      (match stepBreast y r0 e with
       | .error u => .error u
       | .ok r1 => .ok (finishBreast r1)) := by
  rw [extract_breast_append, hf]

theorem extract_lung_append_ok (y : Int) (es : List Resource) (e : Resource)
    (r0 : LungRecord) (hf : foldE (stepLung y) {} es = .ok r0) :
    extract_lung_cancer_biomarkers y (es ++ [e]) =
      (match stepLung y r0 e with
       | .error u => .error u
       | .ok r1 => .ok (finishLung r1)) := by
  rw [extract_lung_append, hf]

/-! Section: Claims -/

/-- C1 counterexample: a breast bundle whose single ER observation carries
the percentage 0 — present and numerically parseable — extracts with
`er_percentage` populated but `er_status` absent (Python's `if value:`
treats 0 as falsy), refuting both the "populated iff present and parseable"
biconditional and the "`p ≤ 10` ⇒ Negative" half of the claim. -/
theorem claim_C1_counterexample :
    (extract_breast_cancer_biomarkers 2026 [obsQ "16112-5" 0]).map
      (fun r => (r.er_percentage, r.er_status)) =
      .ok (some (.num 0), none) := by decide

/-- C1 (amended): when the last entry of a breast bundle is an ER (resp.
PR) observation whose quantity value is a *nonzero* number `q`, any
successful extraction records `q` as the percentage and sets the status to
Positive iff `q > 10`, Negative iff `q ≤ 10`; a zero value records the
percentage but leaves the status untouched (absent in a fresh record). -/
theorem claim_C1_amended (y : Int) (es : List Resource) (q : ℚ) (hq : q ≠ 0) :
    ((extract_breast_cancer_biomarkers y (es ++ [obsQ "16112-5" q])).isOk = true →
      (extract_breast_cancer_biomarkers y (es ++ [obsQ "16112-5" q])).map
        (fun r => (r.er_percentage, r.er_status)) =
      .ok (some (.num q), some (if 10 < q then "Positive" else "Negative"))) ∧
    ((extract_breast_cancer_biomarkers y (es ++ [obsQ "16113-3" q])).isOk = true →
      (extract_breast_cancer_biomarkers y (es ++ [obsQ "16113-3" q])).map
        (fun r => (r.pr_percentage, r.pr_status)) =
      .ok (some (.num q), some (if 10 < q then "Positive" else "Negative"))) ∧
    (extract_breast_cancer_biomarkers y [obsQ "16112-5" 0]).map
      (fun r => (r.er_percentage, r.er_status)) = .ok (some (.num 0), none) := by
  refine ⟨?_, ?_, by with_unfolding_all rfl⟩
  · intro h
    cases hf : foldE (stepBreast y) {} es with
    | error u =>
      rw [extract_breast_append, hf] at h
      exact absurd h Bool.false_ne_true
    | ok r0 =>
      have hstep : stepBreast y r0 (obsQ "16112-5" q) =
          applyBreastAct r0 (some (.num q)) BreastAct.er := by
        with_unfolding_all rfl
      rw [extract_breast_append_ok y es _ r0 hf, hstep,
        applyBreastAct_er_num r0 q hq]
      simp [Except.map, finishBreast_er_percentage, finishBreast_er_status]
  · intro h
    cases hf : foldE (stepBreast y) {} es with
    | error u =>
      rw [extract_breast_append, hf] at h
      exact absurd h Bool.false_ne_true
    | ok r0 =>
      have hstep : stepBreast y r0 (obsQ "16113-3" q) =
          applyBreastAct r0 (some (.num q)) BreastAct.pr := by
        with_unfolding_all rfl
      rw [extract_breast_append_ok y es _ r0 hf, hstep,
        applyBreastAct_pr_num r0 q hq]
      simp [Except.map, finishBreast_pr_percentage, finishBreast_pr_status]

/-- C1 witness: the amended ER/PR behaviour applied at percentage 15 on a
singleton bundle. -/
theorem claim_C1_witness :
    (extract_breast_cancer_biomarkers 2026 ([] ++ [obsQ "16112-5" 15])).map
      (fun r => (r.er_percentage, r.er_status)) =
      .ok (some (.num 15), some (if (10 : ℚ) < 15 then "Positive" else "Negative")) :=
  (claim_C1_amended 2026 [] 15 (by decide)).1 (by decide)

/-- C2 counterexample: an observation carrying a coded value whose `coding`
list is present but empty makes the Value Resolver raise an `IndexError`
(modelled `.error ()`) instead of returning absent, refuting "if that
coding list is empty, absent" and "never raises". -/
theorem claim_C2_counterexample :
    extract_value_from_observation ⟨⟨none, none⟩, none, some ⟨some [], none⟩, none⟩ =
      .error () := by decide

/-- C2 (amended): the Value Resolver raises *exactly* on the observations
with no quantity and a coded value whose `coding` list is present but
empty (an index error instead of the claimed absent); on every other
observation it never raises and returns exactly the spec's resolver result
— quantity magnitude, else first-coding display of the coded value (absent
when the `coding` key is missing), else free text verbatim, else absent. -/
theorem claim_C2_amended (o : Observation) :
    (extract_value_from_observation o = .error () ↔ emptyCodedValue o = true) ∧
    (emptyCodedValue o = false →
      extract_value_from_observation o = .ok (specValueResolver o)) := by
  obtain ⟨cc, vq, vcc, vs⟩ := o
  cases vq with
  | some qq =>
    exact ⟨by simp [extract_value_from_observation, emptyCodedValue],
           fun h1 => rfl⟩
  | none =>
    cases vcc with
    | none =>
      cases vs with
      | some sv =>
        exact ⟨by simp [extract_value_from_observation, emptyCodedValue],
               fun h1 => rfl⟩
      | none =>
        exact ⟨by simp [extract_value_from_observation, emptyCodedValue],
               fun h1 => rfl⟩
    | some cc2 =>
      obtain ⟨cod2, txt2⟩ := cc2
      cases cod2 with
      | none =>
        exact ⟨by simp [extract_value_from_observation, emptyCodedValue],
               fun h1 => rfl⟩
      | some l =>
        cases l with
        | nil =>
          exact ⟨by simp [extract_value_from_observation, emptyCodedValue],
                 fun h1 => by simp [emptyCodedValue] at h1⟩
        | cons c t =>
          exact ⟨by simp [extract_value_from_observation, emptyCodedValue],
                 fun h1 => rfl⟩

/-- C2 witness: the refinement applied to a concrete free-text observation,
and the raise characterization applied to a concrete present-but-empty
coded value. -/
theorem claim_C2_witness :
    extract_value_from_observation ⟨⟨none, none⟩, none, none, some "free text"⟩ =
      .ok (specValueResolver ⟨⟨none, none⟩, none, none, some "free text"⟩) ∧
    (extract_value_from_observation ⟨⟨none, none⟩, none, some ⟨some [], none⟩, none⟩ =
        .error () ↔
      emptyCodedValue ⟨⟨none, none⟩, none, some ⟨some [], none⟩, none⟩ = true) :=
  ⟨(claim_C2_amended ⟨⟨none, none⟩, none, none, some "free text"⟩).2 (by decide),
   (claim_C2_amended ⟨⟨none, none⟩, none, some ⟨some [], none⟩, none⟩).1⟩

/-- C3: the claim is the code's own stated policy (lung PD-L1/FEV1/DLCO wrap
`float` in `try/except: pass`), but the breast ER/PR categorization omits
the guard: a truthy unparsable value raises a `ValueError` that aborts the
whole record instead of keeping the raw percentage; the lung path conforms
(raw value kept, category absent). -/
theorem claim_C3_breast_raises :
    extract_breast_cancer_biomarkers 2026 [obsS "16112-5" "abc"] = .error () ∧
    (extract_lung_cancer_biomarkers 2026 [obsS "85147-7" "abc"]).map
      (fun r => (r.pdl1_percentage, r.pdl1_category)) =
      .ok (some (.str "abc"), none) := by
  exact ⟨by decide, by decide⟩

/-- C4 counterexample: a breast bundle whose three TNM observations are all
present but with `tnm_t` an empty string (falsy in Python) leaves
`tnm_complete` absent even though `tnm_t`, `tnm_n`, `tnm_m` are all
populated, refuting "present iff all three are present". -/
theorem claim_C4_counterexample :
    (extract_breast_cancer_biomarkers 2026
      [obsS "21905-5" "", obsS "21906-3" "N0", obsS "21907-1" "M0"]).map
      (fun r => (r.tnm_t, r.tnm_n, r.tnm_m, r.tnm_complete)) =
      .ok (some (.str ""), some (.str "N0"), some (.str "M0"), none) := by decide

/-- C4 (amended): in every successfully extracted record (breast or lung),
`tnm_complete` is populated iff `tnm_t`, `tnm_n` and `tnm_m` are all
*truthy* — non-absent and neither zero nor the empty string. -/
theorem claim_C4_amended :
    (∀ (y : Int) (entries : List Resource) (r : BreastRecord),
      extract_breast_cancer_biomarkers y entries = .ok r →
      (r.tnm_complete ≠ none ↔
        (pyTruthy r.tnm_t = true ∧ pyTruthy r.tnm_n = true ∧ pyTruthy r.tnm_m = true))) ∧
    (∀ (y : Int) (entries : List Resource) (r : LungRecord),
      extract_lung_cancer_biomarkers y entries = .ok r →
      (r.tnm_complete ≠ none ↔
        (pyTruthy r.tnm_t = true ∧ pyTruthy r.tnm_n = true ∧ pyTruthy r.tnm_m = true))) :=
  ⟨extract_breast_tnm_iff, extract_lung_tnm_iff⟩

/-- The record extracted from the complete-TNM witness bundle of C4. -/
def c4rec : BreastRecord :=
  { tnm_t := some (.str "T2"), tnm_n := some (.str "N0"),
    tnm_m := some (.str "M0"), tnm_complete := some "T2, N0, M0" }

/-- C4 witness: the amended biconditional applied to a concrete breast
bundle with three truthy TNM values. -/
theorem claim_C4_witness :
    extract_breast_cancer_biomarkers 2026
      [obsS "21905-5" "T2", obsS "21906-3" "N0", obsS "21907-1" "M0"] = .ok c4rec ∧
    (c4rec.tnm_complete ≠ none ↔
      (pyTruthy c4rec.tnm_t = true ∧ pyTruthy c4rec.tnm_n = true ∧
       pyTruthy c4rec.tnm_m = true)) :=
  ⟨by decide,
   claim_C4_amended.1 2026
     [obsS "21905-5" "T2", obsS "21906-3" "N0", obsS "21907-1" "M0"] c4rec (by decide)⟩

/-- C5: last-match-wins, in full generality over both extractors' value
fields.  For any bundle in which an Observation `o` dispatches (by
controlled code or by keyword, with any value representation) to a
value-writing biomarker branch `a`, and is followed only by entries that do
not dispatch to the same branch, a successful extraction stores `o`'s
resolved value `v` in the field of `a` — overwriting whatever any earlier
matching resource in the arbitrary prefix wrote. -/
theorem claim_C5_last_match_wins :
    (∀ (y : Int) (es₁ es₂ : List Resource) (o : Observation) (a : BreastAct)
       (f : BreastRecord → Option PyScalar) (v : Option PyScalar)
       (r : BreastRecord),
      entryBreastAct (.observation o) = some a →
      breastField a = some f →
      extract_value_from_observation o = .ok v →
      (∀ e ∈ es₂, entryBreastAct e ≠ some a) →
      extract_breast_cancer_biomarkers y (es₁ ++ .observation o :: es₂) = .ok r →
      f r = v) ∧
    (∀ (y : Int) (es₁ es₂ : List Resource) (o : Observation) (a : LungAct)
       (f : LungRecord → Option PyScalar) (v : Option PyScalar)
       (r : LungRecord),
      entryLungAct (.observation o) = some a →
      lungField a = some f →
      extract_value_from_observation o = .ok v →
      (∀ e ∈ es₂, entryLungAct e ≠ some a) →
      extract_lung_cancer_biomarkers y (es₁ ++ .observation o :: es₂) = .ok r →
      f r = v) := by
  constructor
  · intro y es₁ es₂ o a f v r hao hfa hv hsuf h
    unfold extract_breast_cancer_biomarkers at h
    rw [foldE_append] at h
    cases hf1 : foldE (stepBreast y) {} es₁ with
    | error u => rw [hf1] at h; cases h
    | ok r0 =>
      rw [hf1] at h
      replace h : (match foldE (stepBreast y) r0 (.observation o :: es₂) with
                   | .error u => (.error u : Except Unit BreastRecord)
                   | .ok rr => .ok (finishBreast rr)) = .ok r := h
      rw [foldE_cons] at h
      cases hs : stepBreast y r0 (.observation o) with
      | error u => rw [hs] at h; cases h
      | ok r1 =>
        rw [hs] at h
        replace h : (match foldE (stepBreast y) r1 es₂ with
                     | .error u => (.error u : Except Unit BreastRecord)
                     | .ok rr => .ok (finishBreast rr)) = .ok r := h
        have hset : f r1 = v := stepBreast_act y r0 o r1 a f v hao hfa hv hs
        cases hf2 : foldE (stepBreast y) r1 es₂ with
        | error u => rw [hf2] at h; cases h
        | ok r2 =>
          rw [hf2] at h
          cases h
          have hpres : f r2 = f r1 :=
            foldE_fix (stepBreast y) f es₂
              (fun b e b' he hb => stepBreast_frame y b e b' a f hfa (hsuf e he) hb)
              r1 r2 hf2
          obtain ⟨t, hfin⟩ := finishBreast_fields r2
          rw [hfin]
          have hft : f {r2 with tnm_complete := t} = f r2 := by
            cases a <;> simp only [breastField] at hfa <;> cases hfa <;> rfl
          rw [hft, hpres, hset]
  · intro y es₁ es₂ o a f v r hao hfa hv hsuf h
    unfold extract_lung_cancer_biomarkers at h
    rw [foldE_append] at h
    cases hf1 : foldE (stepLung y) {} es₁ with
    | error u => rw [hf1] at h; cases h
    | ok r0 =>
      rw [hf1] at h
      replace h : (match foldE (stepLung y) r0 (.observation o :: es₂) with
                   | .error u => (.error u : Except Unit LungRecord)
                   | .ok rr => .ok (finishLung rr)) = .ok r := h
      rw [foldE_cons] at h
      cases hs : stepLung y r0 (.observation o) with
      | error u => rw [hs] at h; cases h
      | ok r1 =>
        rw [hs] at h
        replace h : (match foldE (stepLung y) r1 es₂ with
                     | .error u => (.error u : Except Unit LungRecord)
                     | .ok rr => .ok (finishLung rr)) = .ok r := h
        have hset : f r1 = v := stepLung_act y r0 o r1 a f v hao hfa hv hs
        cases hf2 : foldE (stepLung y) r1 es₂ with
        | error u => rw [hf2] at h; cases h
        | ok r2 =>
          rw [hf2] at h
          cases h
          have hpres : f r2 = f r1 :=
            foldE_fix (stepLung y) f es₂
              (fun b e b' he hb => stepLung_frame y b e b' a f hfa (hsuf e he) hb)
              r1 r2 hf2
          obtain ⟨t, hfin⟩ := finishLung_fields r2
          rw [hfin]
          have hft : f {r2 with tnm_complete := t} = f r2 := by
            cases a <;> simp only [lungField] at hfa <;> cases hfa <;> rfl
          rw [hft, hpres, hset]

/-- The record extracted from the C5 witness bundle: an earlier ER value 99
is overwritten by the later ER value 15; the trailing Ki-67 observation
does not touch the ER fields. -/
def c5rec : BreastRecord :=
  { er_status := some "Positive", er_percentage := some (.num 15),
    ki67_percentage := some (.num 30) }

/-- C5 witness: last-match-wins applied to a concrete bundle with two ER
observations (99 then 15) and a trailing Ki-67 observation, instantiating
the branch at ER and its field at `er_percentage`. -/
theorem claim_C5_witness :
    extract_breast_cancer_biomarkers 2026
      [obsQ "16112-5" 99, obsQ "16112-5" 15, obsQ "85319-2" 30] = .ok c5rec ∧
    c5rec.er_percentage = some (.num 15) :=
  ⟨by decide,
   claim_C5_last_match_wins.1 2026 [obsQ "16112-5" 99] [obsQ "85319-2" 30]
     (obsO "16112-5" 15) BreastAct.er (fun r => r.er_percentage)
     (some (.num 15)) c5rec (by decide) rfl (by decide) (by decide) (by decide)⟩

/-- The C6 counterexample observation: the controlled ER code sits on the
*second* coding entry; the first coding entry matches nothing. -/
def obs6 : Observation :=
  ⟨⟨some [⟨some "zzz", some "zzz"⟩, ⟨some "16112-5", some "Estrogen Receptor"⟩],
    none⟩, some ⟨some (.num 20)⟩, none, none⟩

/-- C6 counterexample: the Coverage Verifier finds the biomarker through
the second coding entry's controlled code, but the Extraction Engine —
which reads only the first coding entry — leaves `er_percentage` absent on
the very same bundle, refuting "as used by both the Extraction Engine and
the Coverage Verifier". -/
theorem claim_C6_counterexample :
    check_biomarker_in_observation obs6 ["16112-5"]
      ["estrogen receptor", "er receptor", "er status"] = .ok true ∧
    (extract_breast_cancer_biomarkers 2026 [.observation obs6]).map
      (fun r => r.er_percentage) = .ok none :=
  ⟨by decide, by decide⟩

/-- C6 (amended): the Coverage Verifier's controlled match scans *all*
coded concepts under exact case-sensitive equality and needs no keyword
hit; the Extraction Engine, by contrast, consults only the first coding
entry — dropping the tail of the coding list does not change its step. -/
theorem claim_C6_amended :
    (∀ (o : Observation) (codes kws : List String) (c : Coding) (cd : String),
      c ∈ o.code.coding.getD [] → c.code = some cd → cd ∈ codes →
      check_biomarker_in_observation o codes kws = .ok true) ∧
    (∀ (y : Int) (r : BreastRecord) (c : Coding) (rest : List Coding)
       (txt : Option String) (vq : Option Quantity)
       (vcc : Option CodeableConcept) (vs : Option String),
      stepBreast y r (.observation ⟨⟨some (c :: rest), txt⟩, vq, vcc, vs⟩) =
      stepBreast y r (.observation ⟨⟨some [c], txt⟩, vq, vcc, vs⟩)) :=
  ⟨check_code_hit, stepBreast_first_coding_only⟩

/-- C6 witness: the any-coding controlled match applied to the concrete
two-coding observation. -/
theorem claim_C6_witness :
    (⟨some "16112-5", some "Estrogen Receptor"⟩ : Coding) ∈
      obs6.code.coding.getD [] ∧
    check_biomarker_in_observation obs6 ["16112-5"] [] = .ok true :=
  ⟨by decide,
   claim_C6_amended.1 obs6 ["16112-5"] []
     ⟨some "16112-5", some "Estrogen Receptor"⟩ "16112-5" (by decide) rfl (by decide)⟩

/-- The C7 counterexample observation: no coding at all, but a free-text
label naming the concept. -/
def obs7 : Observation :=
  ⟨⟨none, some "Estrogen Receptor"⟩, some ⟨some (.num 20)⟩, none, none⟩

/-- C7 counterexample: the Coverage Verifier's fallback finds the
biomarker through the free-text label, but the Extraction Engine's keyword
matching never reads that label — the same bundle extracts with both ER
fields absent, refuting "as used by both". -/
theorem claim_C7_counterexample :
    check_biomarker_in_observation obs7 ["16112-5"]
      ["estrogen receptor", "er receptor", "er status"] = .ok true ∧
    (extract_breast_cancer_biomarkers 2026 [.observation obs7]).map
      (fun r => (r.er_percentage, r.er_status)) = .ok (none, none) :=
  ⟨by decide, by decide⟩

/-- C7 (amended): when the controlled loop misses on every coding entry,
the *Verifier* returns true iff some keyword is a case-insensitive
substring of the first coding entry's lower-cased display or of the
lower-cased free-text label; the *Extraction Engine*, by contrast, ignores
the free-text label entirely (its step is invariant under changing
`code.text`). -/
theorem claim_C7_amended :
    (∀ (o : Observation) (codes kws : List String) (c : Coding)
       (rest : List Coding),
      o.code.coding = some (c :: rest) →
      (∀ c' ∈ (c :: rest : List Coding),
        ((c'.code.map (codes.contains ·)).getD false) = false) →
      (check_biomarker_in_observation o codes kws = .ok true ↔
        ∃ kw ∈ kws,
          (strContains (strLower (c.display.getD "")) (strLower kw) ||
           strContains (strLower (o.code.text.getD "")) (strLower kw)) = true)) ∧
    (∀ (y : Int) (r : BreastRecord) (cod : Option (List Coding))
       (txt txt' : Option String) (vq : Option Quantity)
       (vcc : Option CodeableConcept) (vs : Option String),
      stepBreast y r (.observation ⟨⟨cod, txt⟩, vq, vcc, vs⟩) =
      stepBreast y r (.observation ⟨⟨cod, txt'⟩, vq, vcc, vs⟩)) :=
  ⟨check_fallback_iff, stepBreast_text_ignored⟩

/-- C7 witness: the fallback biconditional applied to a concrete
observation whose single coding has no code but a matching display. -/
theorem claim_C7_witness :
    check_biomarker_in_observation
      ⟨⟨some [⟨none, some "Estrogen Receptor"⟩], none⟩, none, none, none⟩
      ["16112-5"] ["estrogen receptor"] = .ok true :=
  (claim_C7_amended.1 ⟨⟨some [⟨none, some "Estrogen Receptor"⟩], none⟩, none, none, none⟩
      ["16112-5"] ["estrogen receptor"] ⟨none, some "Estrogen Receptor"⟩ [] rfl
      (by decide)).mpr
    ⟨"estrogen receptor", by decide, by decide⟩

/-- C8: the Coverage Verifier accumulates found biomarkers as a set —
duplicating every entry of a bundle leaves its found set unchanged;
per-patient `missing` is exactly the required set minus the found set; and
at dataset level the counter of a required biomarker `B` equals the number
of bundles in which `B` is found. -/
theorem claim_C8_coverage :
    (∀ (cfgCodes cfgKw : List (String × List String)) (es : List Resource),
      analyze_entries cfgCodes cfgKw (es ++ es) = analyze_entries cfgCodes cfgKw es) ∧
    (∀ (cfgCodes : List (String × List String)) (found : Finset String) (B : String),
      B ∈ missingOf cfgCodes found ↔ (B ∈ requiredSet cfgCodes ∧ B ∉ found)) ∧
    (∀ (cfgCodes cfgKw : List (String × List String))
       (bundles : List (List Resource)) (stats : String → Nat) (B : String),
      runStats cfgCodes cfgKw bundles = .ok stats →
      B ∈ cfgCodes.map Prod.fst →
      stats B = bundles.countP (foundIn cfgCodes cfgKw B)) := by
  refine ⟨?_, ?_, ?_⟩
  · intro cfg kw es
    unfold analyze_entries
    rw [foldE_append]
    cases hf : foldE (stepFound cfg kw) ∅ es with
    | error u => rfl
    | ok m =>
      show foldE (stepFound cfg kw) m es = .ok m
      rw [foldE_union (stepFound cfg kw) (stepFound_union cfg kw) es m, hf]
      simp [Except.map]
  · intro cfg found B
    unfold missingOf
    exact Finset.mem_sdiff
  · intro cfg kw bundles stats B h hB
    unfold runStats at h
    have := foldStats_count cfg kw B hB bundles (fun _ => 0) stats h
    simpa using this

/-- The statistics after the single C8 witness bundle: `ER` counted once. -/
def c8stats : String → Nat :=
  updateStats (breastCodes.map Prod.fst) (fun _ => 0) (insert "ER" ∅)

/-- C8 witness: the dataset-count identity applied to one bundle whose ER
observation is found by controlled code. -/
theorem claim_C8_witness :
    runStats breastCodes breastKeywords [[obsQ "16112-5" 15]] = .ok c8stats ∧
    c8stats "ER" = List.countP (foundIn breastCodes breastKeywords "ER")
      [[obsQ "16112-5" 15]] :=
  ⟨by with_unfolding_all rfl,
   claim_C8_coverage.2.2 breastCodes breastKeywords [[obsQ "16112-5" 15]] c8stats
     "ER" (by with_unfolding_all rfl) (by decide)⟩

/-- C9 counterexample: the extractor reads the wall clock
(`datetime.now().year`, here the explicit year parameter): the same bundle
extracted under two different clock years yields different records (the
`age` field moves), so repeated calls are not identical when the year
changes between them. -/
theorem claim_C9_counterexample :
    extract_breast_cancer_biomarkers 2025
      [.patient (some "p1") (some "female") (some "1970-01-01")] ≠
    extract_breast_cancer_biomarkers 2026
      [.patient (some "p1") (some "female") (some "1970-01-01")] := by decide

/-- C9 (amended): extraction is deterministic given the bundle, the
profile, and the current clock year: equal inputs produce identical output
records for both cancer types. -/
theorem claim_C9_amended (y₁ y₂ : Int) (b₁ b₂ : List Resource)
    (hy : y₁ = y₂) (hb : b₁ = b₂) :
    extract_breast_cancer_biomarkers y₁ b₁ = extract_breast_cancer_biomarkers y₂ b₂ ∧
    extract_lung_cancer_biomarkers y₁ b₁ = extract_lung_cancer_biomarkers y₂ b₂ := by
  subst hy; subst hb; exact ⟨rfl, rfl⟩

/-- C9 witness: determinism applied at a concrete bundle and year. -/
theorem claim_C9_witness :
    extract_breast_cancer_biomarkers 2026 [obsQ "16112-5" 15] =
      extract_breast_cancer_biomarkers 2026 [obsQ "16112-5" 15] ∧
    extract_lung_cancer_biomarkers 2026 [obsQ "16112-5" 15] =
      extract_lung_cancer_biomarkers 2026 [obsQ "16112-5" 15] :=
  claim_C9_amended 2026 2026 [obsQ "16112-5" 15] [obsQ "16112-5" 15] rfl rfl

/-- C10 counterexample: an observation whose `coding` list is present but
empty makes the Verifier's concept match raise (`IndexError` at the
`[{}]`-defaulted first-coding lookup) rather than fall through to a boolean
keyword result. -/
theorem claim_C10_counterexample :
    check_biomarker_in_observation ⟨⟨some [], some "Estrogen Receptor"⟩, none, none, none⟩
      ["16112-5"] ["estrogen receptor"] = .error () := by decide

/-- C10 (amended): with a present-but-empty `coding` list the Verifier's
check raises once the controlled-code loop misses; in every other shape
(missing `coding` key, or a nonempty list) the check is total and returns
a boolean. -/
theorem claim_C10_amended :
    (∀ (o : Observation) (codes kws : List String),
      o.code.coding = some [] →
      check_biomarker_in_observation o codes kws = .error ()) ∧
    (∀ (o : Observation) (codes kws : List String),
      o.code.coding ≠ some [] →
      (check_biomarker_in_observation o codes kws).isOk = true) :=
  ⟨check_empty_coding, check_total⟩

/-- C10 witness: totality applied to a concrete observation with a missing
coding key, and the raise applied to a present-but-empty list. -/
theorem claim_C10_witness :
    (check_biomarker_in_observation ⟨⟨none, some "note"⟩, none, none, none⟩
      ["16112-5"] ["er status"]).isOk = true ∧
    check_biomarker_in_observation ⟨⟨some [], none⟩, none, none, none⟩
      ["16112-5"] ["er status"] = .error () :=
  ⟨claim_C10_amended.2 ⟨⟨none, some "note"⟩, none, none, none⟩ ["16112-5"]
      ["er status"] (by decide),
   claim_C10_amended.1 ⟨⟨some [], none⟩, none, none, none⟩ ["16112-5"]
      ["er status"] rfl⟩

end Duraxell

